import Mathlib

/-!
# Verification of the quote client/server (juizmill/client-server-api)

Shallow embedding of the two Go programs:

* `server/main.go`: the single HTTP handler `handleCotacao`, which fetches a
  currency quote from an external API, maps errors to HTTP statuses, inserts a
  row into SQLite and writes a JSON response.  The handler is modelled as a
  pure function from the outcome of the outbound call (and the outcome of the
  database insert) to a trace of observable actions.
* `client/main.go` (file name unknown in the snapshot): the single-shot client
  `main`, modelled as a pure function from the outcome of the call to the
  server (and of the file write) to the observable result of the run.

Go's `encoding/json` struct decoding is modelled over a small JSON value type:
object keys match struct tags case-insensitively, unknown keys are ignored,
missing keys leave the zero value, `null` leaves the current value, and type
mismatches are errors.  Only the observable outcome (error or not, value of
the decoded fields) matters to the handler, so the model short-circuits at the
first type error where Go collects it and keeps going; the handler discards
the partially decoded value on error, so this is observationally equivalent.
Log calls (`log.Printf`) are not modelled: they do not affect the response,
the storage, or the client file.
-/

namespace ClientServerAPI

/-- Minimal JSON value type; the body of an HTTP response, once parsed.
`Option Json` stands for the raw body: `none` when the bytes are not a
well-formed JSON value (so the decoder errors before any struct matching),
`some j` when they parse to `j`.  The numeric payload is irrelevant to the
string-typed structs decoded here. -/
inductive Json where
  | null
  | bool (b : Bool)
  | num (n : Int)
  | str (s : String)
  | arr (elems : List Json)
  | obj (fields : List (String × Json))

/-- Go matches incoming object keys to struct field tags preferring an exact
match but also accepting a case-insensitive match; with a single candidate
field per key this collapses to a case-insensitive comparison. -/
def keyMatches (key target : String) : Bool :=
  key.data.map Char.toLower == target.data.map Char.toLower

/-- Decoding a JSON value into a Go `string` field holding `cur`:
a JSON string replaces it, JSON `null` leaves it unchanged, anything else is
an `UnmarshalTypeError`. -/
def decodeStringField (cur : String) : Json → Except String String
  | .str s => .ok s
  | .null => .ok cur
  | _ => .error "cannot unmarshal into field of type string"

/-- The anonymous inner struct of `awesomeAPIResponse` in server/main.go:
`Code`, `Codein`, `Bid` with tags `code`, `codein`, `bid`. -/
structure UsdBrlFields where
  code : String
  codein : String
  bid : String
deriving DecidableEq

/-- Zero value of the inner struct: all fields empty strings. -/
def UsdBrlFields.zero : UsdBrlFields := ⟨"", "", ""⟩

/-- Decoding the fields of a JSON object into the inner struct, in order;
unknown keys are ignored, later duplicates overwrite earlier ones. -/
def decodeUsdBrlObj (cur : UsdBrlFields) : List (String × Json) → Except String UsdBrlFields
  | [] => .ok cur
  | (k, v) :: rest =>
    if keyMatches k "code" then
      (decodeStringField cur.code v).bind fun s => decodeUsdBrlObj { cur with code := s } rest
    else if keyMatches k "codein" then
      (decodeStringField cur.codein v).bind fun s => decodeUsdBrlObj { cur with codein := s } rest
    else if keyMatches k "bid" then
      (decodeStringField cur.bid v).bind fun s => decodeUsdBrlObj { cur with bid := s } rest
    else
      decodeUsdBrlObj cur rest

/-- Decoding a JSON value into the inner struct: an object decodes its fields,
`null` leaves the value unchanged, anything else is a type error. -/
def decodeUsdBrlValue (cur : UsdBrlFields) : Json → Except String UsdBrlFields
  | .obj fields => decodeUsdBrlObj cur fields
  | .null => .ok cur
  | _ => .error "cannot unmarshal into struct field USDBRL"

/-- Decoding the fields of the top-level object of `awesomeAPIResponse`:
only the key `USDBRL` is a struct field, all other keys are ignored. -/
def decodeAwesomeFields (cur : UsdBrlFields) : List (String × Json) → Except String UsdBrlFields
  | [] => .ok cur
  | (k, v) :: rest =>
    if keyMatches k "USDBRL" then
      (decodeUsdBrlValue cur v).bind fun r => decodeAwesomeFields r rest
    else
      decodeAwesomeFields cur rest

/-- Model of `json.NewDecoder(resp.Body).Decode(&apiResp)` for
`awesomeAPIResponse`: an unparsable body is an error, a parsed top-level
object decodes its fields starting from the zero value, top-level `null`
leaves the zero value, any other top-level value is a type error. -/
def decodeAwesomeAPIResponse : Option Json → Except String UsdBrlFields
  | none => .error "invalid JSON body"
  | some (.obj fields) => decodeAwesomeFields UsdBrlFields.zero fields
  | some .null => .ok UsdBrlFields.zero
  | some _ => .error "cannot unmarshal into awesomeAPIResponse"

/-! ## Server constants (server/main.go) -/

def serverAddr : String := ":8080"

def externalAPIURL : String := "https://economia.awesomeapi.com.br/json/last/USD-BRL"

/-- apiTimeout = 200 * time.Millisecond. -/
def apiTimeoutMs : Nat := 200

/-- dbTimeout = 10 * time.Millisecond. -/
def dbTimeoutMs : Nat := 10

def statusOK : Nat := 200

def statusInternalServerError : Nat := 500

def statusBadGateway : Nat := 502

def statusGatewayTimeout : Nat := 504

/-! ## Request creation (`http.NewRequestWithContext`) -/

/-- Characters allowed in an HTTP method token (RFC 7230 tchar); codepoint 39
is the single quote. -/
def isTokenChar (c : Char) : Bool :=
  c.isAlphanum || "!#$%&*+-.^_`|~".data.contains c || c = Char.ofNat 39

/-- Model of the success condition of `http.NewRequestWithContext` with a
non-nil context: the method must be a non-empty valid token and the URL must
parse; `url.Parse` rejects ASCII control characters. -/
def newRequestOk (method url : String) : Bool :=
  method ≠ "" && method.data.all isTokenChar &&
    url.data.all fun c => decide (0x20 ≤ c.toNat) && decide (c.toNat ≠ 0x7f)

/-- The condition of the handler's first error branch: request creation for
the constant method GET and the constant `externalAPIURL` fails.  Both are
fixed valid values, so this is `false` (the 500 branch is dead). -/
def requestCreationFails : Bool :=
  !newRequestOk "GET" externalAPIURL

/-! ## JSON encoding of the response (`json.NewEncoder(w).Encode`) -/

/-- Lower-case hex digit of a value below 16. -/
def hexDigit (n : Nat) : Char :=
  if n < 10 then Char.ofNat (48 + n) else Char.ofNat (87 + n)

/-- Escaping of one character by Go's `encoding/json` string marshalling with
the encoder's default `SetEscapeHTML(true)`. -/
def goJSONEscapeChar (c : Char) : String :=
  if c = '"' then "\\\""
  else if c = '\\' then "\\\\"
  else if c = '\n' then "\\n"
  else if c = '\r' then "\\r"
  else if c = '\t' then "\\t"
  else if c = '<' then "\\u003c"
  else if c = '>' then "\\u003e"
  else if c = '&' then "\\u0026"
  else if c.toNat < 0x20 then
    "\\u00" ++ String.mk [hexDigit (c.toNat / 16), hexDigit (c.toNat % 16)]
  else if c.toNat = 0x2028 then "\\u2028"
  else if c.toNat = 0x2029 then "\\u2029"
  else String.singleton c

/-- Go JSON marshalling of a string value. -/
def goMarshalString (s : String) : String :=
  "\"" ++ String.join (s.data.map goJSONEscapeChar) ++ "\""

/-- Model of `json.NewEncoder(w).Encode(quoteResponse\x7bBid: bid\x7d)`: the
object with single key `bid`, followed by the newline `Encoder.Encode`
appends. -/
def encodeQuoteResponse (bid : String) : String :=
  "\x7b\"bid\":" ++ goMarshalString bid ++ "\x7d\n"

/-! ## The handler -/

/-- Observable actions of one run of the handler, in order: the database
insert (`ExecContext` of `insertQuoteQuery`, with whether it succeeded) and
the writes to the `http.ResponseWriter`. -/
inductive ServerAction where
  | execInsert (code codein bid : String) (succeeded : Bool)
  | setHeader (key value : String)
  | writeStatus (code : Nat)
  | writeBody (s : String)
deriving DecidableEq

/-- Outcome of `s.client.Do(req)`: an error (with whether `ctxAPI.Err()` is
`context.DeadlineExceeded` at that point), or a response with a status code
and a body. -/
inductive UpstreamOutcome where
  | doError (ctxDeadlineExceeded : Bool)
  | response (status : Nat) (body : Option Json)

/-- Outcome of `s.db.ExecContext`: success, failure with the db context's
deadline exceeded, or any other failure. -/
inductive DBResult where
  | ok
  | errTimeout
  | errOther
deriving DecidableEq

/-- Whether the insert succeeded. -/
def DBResult.succeeded : DBResult → Bool
  | .ok => true
  | .errTimeout => false
  | .errOther => false

/-- Model of `http.Error(w, msg, code)`: it sets two headers, writes the
status and prints the message followed by a newline. -/
def httpError (msg : String) (code : Nat) : List ServerAction :=
  [.setHeader "Content-Type" "text/plain; charset=utf-8",
   .setHeader "X-Content-Type-Options" "nosniff",
   .writeStatus code,
   .writeBody (msg ++ "\n")]

/-- Model of `(*server).handleCotacao` in server/main.go, as a function of
the outcome of the outbound call and of the database insert.  Every branch of
the Go function appears in source order; the deferred `cancel` calls and the
log statements have no observable effect and are omitted. -/
def handleCotacao (upstream : UpstreamOutcome) (dbr : DBResult) : List ServerAction :=
  if requestCreationFails then
    httpError "erro interno" statusInternalServerError
  else
    match upstream with
    | .doError deadlineExceeded =>
      if deadlineExceeded then
        httpError "timeout na API externa" statusGatewayTimeout
      else
        httpError "erro ao obter cotação" statusBadGateway
    | .response status body =>
      if status ≠ statusOK then
        httpError "falha na API externa" statusBadGateway
      else
        match decodeAwesomeAPIResponse body with
        | .error _ => httpError "erro ao processar cotação" statusBadGateway
        | .ok usdbrl =>
          if usdbrl.bid = "" then
            httpError "cotação indisponível" statusBadGateway
          else
            ServerAction.execInsert usdbrl.code usdbrl.codein usdbrl.bid dbr.succeeded ::
              [ServerAction.setHeader "Content-Type" "application/json; charset=utf-8",
               ServerAction.writeStatus statusOK,
               ServerAction.writeBody (encodeQuoteResponse usdbrl.bid)]

/-! ## Observations on a handler trace -/

/-- Whether an action is the database insert. -/
def ServerAction.isInsert : ServerAction → Bool
  | .execInsert _ _ _ _ => true
  | _ => false

/-- Whether an action is a successful database insert. -/
def ServerAction.isInsertOk : ServerAction → Bool
  | .execInsert _ _ _ ok => ok
  | _ => false

/-- Whether an action is the status write. -/
def ServerAction.isWriteStatus : ServerAction → Bool
  | .writeStatus _ => true
  | _ => false

/-- The HTTP status of the response: the first `writeStatus` of the trace. -/
def responseStatus : List ServerAction → Option Nat
  | [] => none
  | .writeStatus n :: _ => some n
  | _ :: rest => responseStatus rest

/-- The body of the response: the concatenation of all body writes. -/
def responseBody : List ServerAction → String
  | [] => ""
  | .writeBody s :: rest => s ++ responseBody rest
  | _ :: rest => responseBody rest

/-- How many times the handler executed the INSERT statement. -/
def insertAttempts (t : List ServerAction) : Nat :=
  (t.filter ServerAction.isInsert).length

/-- How many rows the run appended to storage: inserts that succeeded. -/
def rowsAppended (t : List ServerAction) : Nat :=
  (t.filter ServerAction.isInsertOk).length

/-- Inserts executed at or after the status write; `0` means every insert of
the trace happened strictly before the response was written. -/
def insertsAfterStatus (t : List ServerAction) : Nat :=
  insertAttempts (t.dropWhile fun a => !a.isWriteStatus)

/-! ## The client (src/unnamed/part_000) -/

namespace Client

def serverURL : String := "http://localhost:8080/cotacao"

/-- clientTimeout = 300 * time.Millisecond. -/
def clientTimeoutMs : Nat := 300

def outputFile : String := "cotacao.txt"

/-- Decoding the fields of the top-level object of the client's
`quoteResponse`: only the key `bid` is a struct field. -/
def decodeQuoteFields (cur : String) : List (String × Json) → Except String String
  | [] => .ok cur
  | (k, v) :: rest =>
    if keyMatches k "bid" then
      (decodeStringField cur v).bind fun s => decodeQuoteFields s rest
    else
      decodeQuoteFields cur rest

/-- Model of `json.NewDecoder(resp.Body).Decode(&q)` for the client's
`quoteResponse`: the resulting `Bid` field, or an error. -/
def decodeQuoteResponse : Option Json → Except String String
  | none => .error "invalid JSON body"
  | some (.obj fields) => decodeQuoteFields "" fields
  | some .null => .ok ""
  | some _ => .error "cannot unmarshal into quoteResponse"

/-- Outcome of `http.DefaultClient.Do(req)` in the client: an error (with
whether `ctx.Err()` is `context.DeadlineExceeded` at that point), or a
response with a status code and a body. -/
inductive Outcome where
  | doError (ctxDeadlineExceeded : Bool)
  | response (status : Nat) (body : Option Json)

/-- Outcome of `os.WriteFile`. -/
inductive WriteResult where
  | ok
  | err
deriving DecidableEq

/-- Observable result of one client run.  `fatalMsg` is `some` of the format
string when the run ended in `log.Fatalf` (process exit code 1); `writeCall`
records the `os.WriteFile` invocation (path and content) when the run reached
it; `file` is the final content of `outputFile`, given content `prev` before
the run (`os.WriteFile` truncates, so a successful write replaces `prev`
entirely; the content after a failed write is not specified and is modelled
as unchanged). -/
structure Run where
  fatalMsg : Option String
  writeCall : Option (String × String)
  file : Option String
deriving DecidableEq

/-- The condition of the client's first fatal branch: request creation for
the constant method GET and the constant `serverURL` fails.  Both are fixed
valid values, so this is `false`. -/
def requestCreationFails : Bool :=
  !newRequestOk "GET" serverURL

/-- Model of the client's `main` (src/unnamed/part_000), as a function of the
outcome of the call to the server, the outcome of the file write, and the
prior content of the output file.  Every `log.Fatalf` terminates the process
before the file write; the final `log.Printf` is not modelled. -/
def clientMain (outcome : Outcome) (w : WriteResult) (prev : Option String) : Run :=
  if requestCreationFails then
    ⟨some "erro ao criar request: %v", none, prev⟩
  else
    match outcome with
    | .doError deadlineExceeded =>
      if deadlineExceeded then
        ⟨some "timeout ao chamar servidor (>%v): %v", none, prev⟩
      else
        ⟨some "erro ao chamar servidor: %v", none, prev⟩
    | .response status body =>
      if status ≠ statusOK then
        ⟨some "servidor retornou status %d", none, prev⟩
      else
        match decodeQuoteResponse body with
        | .error _ => ⟨some "erro ao decodificar resposta do servidor: %v", none, prev⟩
        | .ok bid =>
          if bid = "" then
            ⟨some "resposta do servidor sem campo bid", none, prev⟩
          else
            let content := "Dólar: " ++ bid
            match w with
            | .err => ⟨some "erro ao escrever arquivo %s: %v", some (outputFile, content), prev⟩
            | .ok => ⟨none, some (outputFile, content), some content⟩

end Client

/-! ## Branch equations for the handler -/

theorem requestCreationFails_eq : requestCreationFails = false := by decide

theorem client_requestCreationFails_eq : Client.requestCreationFails = false := by decide

theorem handleCotacao_timeout (dbr : DBResult) :
    handleCotacao (.doError true) dbr = httpError "timeout na API externa" statusGatewayTimeout := by
  simp [handleCotacao, requestCreationFails_eq]

theorem handleCotacao_transportError (dbr : DBResult) :
    handleCotacao (.doError false) dbr = httpError "erro ao obter cotação" statusBadGateway := by
  simp [handleCotacao, requestCreationFails_eq]

theorem handleCotacao_badStatus (st : Nat) (body : Option Json) (dbr : DBResult)
    (h : st ≠ 200) :
    handleCotacao (.response st body) dbr = httpError "falha na API externa" statusBadGateway := by
  simp [handleCotacao, requestCreationFails_eq, statusOK, h]

theorem handleCotacao_decodeError (body : Option Json) (dbr : DBResult) (e : String)
    (h : decodeAwesomeAPIResponse body = .error e) :
    handleCotacao (.response 200 body) dbr = httpError "erro ao processar cotação" statusBadGateway := by
  simp [handleCotacao, requestCreationFails_eq, statusOK, h]

theorem handleCotacao_emptyBid (body : Option Json) (dbr : DBResult) (r : UsdBrlFields)
    (hdec : decodeAwesomeAPIResponse body = .ok r) (hbid : r.bid = "") :
    handleCotacao (.response 200 body) dbr = httpError "cotação indisponível" statusBadGateway := by
  simp [handleCotacao, requestCreationFails_eq, statusOK, hdec, hbid]

theorem handleCotacao_success (body : Option Json) (dbr : DBResult) (r : UsdBrlFields)
    (hdec : decodeAwesomeAPIResponse body = .ok r) (hbid : r.bid ≠ "") :
    handleCotacao (.response 200 body) dbr =
      [ServerAction.execInsert r.code r.codein r.bid dbr.succeeded,
       ServerAction.setHeader "Content-Type" "application/json; charset=utf-8",
       ServerAction.writeStatus statusOK,
       ServerAction.writeBody (encodeQuoteResponse r.bid)] := by
  simp [handleCotacao, requestCreationFails_eq, statusOK, hdec, hbid]

theorem responseStatus_httpError (msg : String) (code : Nat) :
    responseStatus (httpError msg code) = some code := rfl

theorem insertAttempts_httpError (msg : String) (code : Nat) :
    insertAttempts (httpError msg code) = 0 := rfl

theorem rowsAppended_httpError (msg : String) (code : Nat) :
    rowsAppended (httpError msg code) = 0 := rfl

theorem decodeAwesomeFields_no_match (cur : UsdBrlFields) (fields : List (String × Json))
    (h : ∀ kv ∈ fields, keyMatches kv.1 "USDBRL" = false) :
    decodeAwesomeFields cur fields = .ok cur := by
  induction fields with
  | nil => rfl
  | cons kv rest ih =>
    obtain ⟨k, v⟩ := kv
    have hk : keyMatches k "USDBRL" = false := h (k, v) (List.mem_cons_self _ _)
    simpa [decodeAwesomeFields, hk] using
      ih fun kv hkv => h kv (List.mem_cons_of_mem _ hkv)

/-! ## Claim theorems -/

/-- A parsed upstream body with code USD, codein BRL and bid 5.43, used as the
concrete input of several witnesses. -/
def jGood : Json :=
  Json.obj [("USDBRL",
    Json.obj [("code", Json.str "USD"), ("codein", Json.str "BRL"), ("bid", Json.str "5.43")])]

/-- C1: when the upstream call returns HTTP 200 with a decodable JSON body
whose bid field is the non-empty string 5.43, the handler responds with
status 200, writes the JSON body with bid 5.43 passed through unchanged
(followed by the newline `json.Encoder.Encode` appends), and executes exactly
one INSERT into the quotes storage. -/
theorem c1_valid_bid_passthrough (j : Json) (dbr : DBResult) (r : UsdBrlFields)
    (hdec : decodeAwesomeAPIResponse (some j) = Except.ok r) (hbid : r.bid = "5.43") :
    responseStatus (handleCotacao (.response 200 (some j)) dbr) = some 200 ∧
    responseBody (handleCotacao (.response 200 (some j)) dbr) = "\x7b\"bid\":\"5.43\"\x7d\n" ∧
    insertAttempts (handleCotacao (.response 200 (some j)) dbr) = 1 := by
  rw [handleCotacao_success (some j) dbr r hdec (by rw [hbid]; decide), hbid]
  refine ⟨rfl, ?_, rfl⟩
  show encodeQuoteResponse "5.43" ++ "" = "\x7b\"bid\":\"5.43\"\x7d\n"
  decide

/-- Witness for C1 at a concrete decodable body with bid 5.43. -/
theorem c1_valid_bid_passthrough_witness :
    decodeAwesomeAPIResponse (some jGood) = Except.ok ⟨"USD", "BRL", "5.43"⟩ ∧
    (responseStatus (handleCotacao (.response 200 (some jGood)) .ok) = some 200 ∧
     responseBody (handleCotacao (.response 200 (some jGood)) .ok) = "\x7b\"bid\":\"5.43\"\x7d\n" ∧
     insertAttempts (handleCotacao (.response 200 (some jGood)) .ok) = 1) :=
  ⟨rfl, c1_valid_bid_passthrough jGood .ok ⟨"USD", "BRL", "5.43"⟩ rfl rfl⟩

/-- C2: when the outbound call fails with the API context's deadline
exceeded, the handler responds with status 504 and appends no storage row
(it executes no INSERT at all). -/
theorem c2_timeout_504 (dbr : DBResult) :
    responseStatus (handleCotacao (.doError true) dbr) = some statusGatewayTimeout ∧
    insertAttempts (handleCotacao (.doError true) dbr) = 0 ∧
    rowsAppended (handleCotacao (.doError true) dbr) = 0 := by
  rw [handleCotacao_timeout dbr]
  exact ⟨rfl, rfl, rfl⟩

/-- C3: each of the three failure modes of the upstream call — a non-timeout
transport error, a non-200 upstream status, and a 200 body that does not
decode — makes the handler respond with status 502 and execute no INSERT. -/
theorem c3_bad_gateway_502 (dbr : DBResult) :
    (responseStatus (handleCotacao (.doError false) dbr) = some statusBadGateway ∧
      insertAttempts (handleCotacao (.doError false) dbr) = 0) ∧
    (∀ (st : Nat) (body : Option Json), st ≠ 200 →
      responseStatus (handleCotacao (.response st body) dbr) = some statusBadGateway ∧
      insertAttempts (handleCotacao (.response st body) dbr) = 0) ∧
    (∀ (body : Option Json) (e : String), decodeAwesomeAPIResponse body = Except.error e →
      responseStatus (handleCotacao (.response 200 body) dbr) = some statusBadGateway ∧
      insertAttempts (handleCotacao (.response 200 body) dbr) = 0) := by
  refine ⟨?_, ?_, ?_⟩
  · rw [handleCotacao_transportError dbr]
    exact ⟨rfl, rfl⟩
  · intro st body hst
    rw [handleCotacao_badStatus st body dbr hst]
    exact ⟨rfl, rfl⟩
  · intro body e hdec
    rw [handleCotacao_decodeError body dbr e hdec]
    exact ⟨rfl, rfl⟩

/-- Witness for C3 at upstream status 500 and at an unparsable 200 body. -/
theorem c3_bad_gateway_502_witness :
    (500 ≠ 200 ∧
      responseStatus (handleCotacao (.response 500 none) .ok) = some statusBadGateway) ∧
    (decodeAwesomeAPIResponse none = Except.error "invalid JSON body" ∧
      responseStatus (handleCotacao (.response 200 none) .ok) = some statusBadGateway) ∧
    responseStatus (handleCotacao (.doError false) .ok) = some statusBadGateway :=
  ⟨⟨by decide, ((c3_bad_gateway_502 .ok).2.1 500 none (by decide)).1⟩,
   ⟨rfl, ((c3_bad_gateway_502 .ok).2.2 none "invalid JSON body" rfl).1⟩,
   (c3_bad_gateway_502 .ok).1.1⟩

/-- C4: when the upstream 200 body decodes but its bid field is empty or
absent, the handler responds with status 502 and executes no INSERT; and the
INSERT is reached only after the bid is validated non-empty: every insert
appearing in any handler trace carries a non-empty bid. -/
theorem c4_empty_bid_502_no_insert :
    (∀ (body : Option Json) (dbr : DBResult) (r : UsdBrlFields),
        decodeAwesomeAPIResponse body = Except.ok r → r.bid = "" →
        responseStatus (handleCotacao (.response 200 body) dbr) = some statusBadGateway ∧
        insertAttempts (handleCotacao (.response 200 body) dbr) = 0) ∧
    (∀ (u : UpstreamOutcome) (dbr : DBResult) (c cn b : String) (ok : Bool),
        ServerAction.execInsert c cn b ok ∈ handleCotacao u dbr → b ≠ "") := by
  constructor
  · intro body dbr r hdec hbid
    rw [handleCotacao_emptyBid body dbr r hdec hbid]
    exact ⟨rfl, rfl⟩
  · intro u dbr c cn b ok hmem
    cases u with
    | doError dl =>
      cases dl
      · rw [handleCotacao_transportError dbr] at hmem
        simp [httpError] at hmem
      · rw [handleCotacao_timeout dbr] at hmem
        simp [httpError] at hmem
    | response st body =>
      by_cases hst : st = 200
      · subst hst
        cases hdec : decodeAwesomeAPIResponse body with
        | error e =>
          rw [handleCotacao_decodeError body dbr e hdec] at hmem
          simp [httpError] at hmem
        | ok r =>
          by_cases hbid : r.bid = ""
          · rw [handleCotacao_emptyBid body dbr r hdec hbid] at hmem
            simp [httpError] at hmem
          · rw [handleCotacao_success body dbr r hdec hbid] at hmem
            simp only [List.mem_cons, List.not_mem_nil, or_false] at hmem
            rcases hmem with h | h | h | h <;> first
              | (injection h with h1 h2 h3 h4; subst h3; exact hbid)
              | exact absurd h (by simp)
      · rw [handleCotacao_badStatus st body dbr hst] at hmem
        simp [httpError] at hmem

/-- Witness for C4 at the empty top-level object, which decodes to the zero
value with an empty bid. -/
theorem c4_empty_bid_502_no_insert_witness :
    decodeAwesomeAPIResponse (some (Json.obj [])) = Except.ok UsdBrlFields.zero ∧
    responseStatus (handleCotacao (.response 200 (some (Json.obj []))) .ok)
      = some statusBadGateway :=
  ⟨rfl, (c4_empty_bid_502_no_insert.1 (some (Json.obj [])) .ok UsdBrlFields.zero rfl rfl).1⟩

/-- C5: when the upstream fetch succeeds with a non-empty bid but the storage
INSERT fails (timeout or any other error), the handler still responds with
status 200 carrying the fetched bid; moreover the storage outcome never
changes the status or the body of any response. -/
theorem c5_storage_error_keeps_200 :
    (∀ (body : Option Json) (dbr : DBResult) (r : UsdBrlFields),
        decodeAwesomeAPIResponse body = Except.ok r → r.bid ≠ "" → dbr ≠ DBResult.ok →
        responseStatus (handleCotacao (.response 200 body) dbr) = some 200 ∧
        responseBody (handleCotacao (.response 200 body) dbr) = encodeQuoteResponse r.bid) ∧
    (∀ (u : UpstreamOutcome) (dbr : DBResult),
        responseStatus (handleCotacao u dbr) = responseStatus (handleCotacao u DBResult.ok) ∧
        responseBody (handleCotacao u dbr) = responseBody (handleCotacao u DBResult.ok)) := by
  constructor
  · intro body dbr r hdec hbid _
    rw [handleCotacao_success body dbr r hdec hbid]
    refine ⟨rfl, ?_⟩
    show encodeQuoteResponse r.bid ++ "" = encodeQuoteResponse r.bid
    exact String.append_empty _
  · intro u dbr
    cases u with
    | doError dl =>
      cases dl
      · rw [handleCotacao_transportError dbr, handleCotacao_transportError DBResult.ok]
        exact ⟨rfl, rfl⟩
      · rw [handleCotacao_timeout dbr, handleCotacao_timeout DBResult.ok]
        exact ⟨rfl, rfl⟩
    | response st body =>
      by_cases hst : st = 200
      · subst hst
        cases hdec : decodeAwesomeAPIResponse body with
        | error e =>
          rw [handleCotacao_decodeError body dbr e hdec,
            handleCotacao_decodeError body DBResult.ok e hdec]
          exact ⟨rfl, rfl⟩
        | ok r =>
          by_cases hbid : r.bid = ""
          · rw [handleCotacao_emptyBid body dbr r hdec hbid,
              handleCotacao_emptyBid body DBResult.ok r hdec hbid]
            exact ⟨rfl, rfl⟩
          · rw [handleCotacao_success body dbr r hdec hbid,
              handleCotacao_success body DBResult.ok r hdec hbid]
            exact ⟨rfl, rfl⟩
      · rw [handleCotacao_badStatus st body dbr hst, handleCotacao_badStatus st body DBResult.ok hst]
        exact ⟨rfl, rfl⟩

/-- Witness for C5 at a concrete decodable body and a storage timeout. -/
theorem c5_storage_error_keeps_200_witness :
    decodeAwesomeAPIResponse (some jGood) = Except.ok ⟨"USD", "BRL", "5.43"⟩ ∧
    responseStatus (handleCotacao (.response 200 (some jGood)) .errTimeout) = some 200 :=
  ⟨rfl, (c5_storage_error_keeps_200.1 (some jGood) .errTimeout ⟨"USD", "BRL", "5.43"⟩ rfl
    (by decide) (by decide)).1⟩

/-- C6 counterexample: on a successful upstream fetch with the non-empty bid
5.43 but a failing storage INSERT, the number of rows actually appended to
storage is 0, not 1: the claim that exactly one row is appended per
successful upstream fetch fails when the INSERT fails. -/
theorem c6_counterexample :
    decodeAwesomeAPIResponse (some jGood) = Except.ok ⟨"USD", "BRL", "5.43"⟩ ∧
    ¬ rowsAppended (handleCotacao (.response 200 (some jGood)) .errOther) = 1 :=
  ⟨rfl, by decide⟩

/-- C6 (amended): on a successful upstream fetch with a non-empty bid the
handler executes exactly one INSERT, and does so strictly before writing the
response; exactly one row is appended when the INSERT succeeds and zero when
it fails. -/
theorem c6_one_insert_before_response (body : Option Json) (dbr : DBResult) (r : UsdBrlFields)
    (hdec : decodeAwesomeAPIResponse body = Except.ok r) (hbid : r.bid ≠ "") :
    insertAttempts (handleCotacao (.response 200 body) dbr) = 1 ∧
    rowsAppended (handleCotacao (.response 200 body) dbr)
      = (if dbr = DBResult.ok then 1 else 0) ∧
    insertsAfterStatus (handleCotacao (.response 200 body) dbr) = 0 := by
  rw [handleCotacao_success body dbr r hdec hbid]
  refine ⟨rfl, ?_, rfl⟩
  cases dbr <;> rfl

/-- Witness for the amended C6 at a concrete decodable body. -/
theorem c6_one_insert_before_response_witness :
    insertAttempts (handleCotacao (.response 200 (some jGood)) .errOther) = 1 ∧
    rowsAppended (handleCotacao (.response 200 (some jGood)) .errOther)
      = (if DBResult.errOther = DBResult.ok then 1 else 0) ∧
    insertsAfterStatus (handleCotacao (.response 200 (some jGood)) .errOther) = 0 :=
  c6_one_insert_before_response (some jGood) .errOther ⟨"USD", "BRL", "5.43"⟩ rfl (by decide)

/-- C7: every handler response carries one of the statuses 200, 502 and 504;
in particular the request-creation 500 branch is dead, because the method and
the URL are valid constants. -/
theorem c7_status_complete (u : UpstreamOutcome) (dbr : DBResult) :
    responseStatus (handleCotacao u dbr) = some 200 ∨
    responseStatus (handleCotacao u dbr) = some 502 ∨
    responseStatus (handleCotacao u dbr) = some 504 := by
  cases u with
  | doError dl =>
    cases dl
    · rw [handleCotacao_transportError dbr]
      exact Or.inr (Or.inl rfl)
    · rw [handleCotacao_timeout dbr]
      exact Or.inr (Or.inr rfl)
  | response st body =>
    by_cases hst : st = 200
    · subst hst
      cases hdec : decodeAwesomeAPIResponse body with
      | error e =>
        rw [handleCotacao_decodeError body dbr e hdec]
        exact Or.inr (Or.inl rfl)
      | ok r =>
        by_cases hbid : r.bid = ""
        · rw [handleCotacao_emptyBid body dbr r hdec hbid]
          exact Or.inr (Or.inl rfl)
        · rw [handleCotacao_success body dbr r hdec hbid]
          exact Or.inl rfl
    · rw [handleCotacao_badStatus st body dbr hst]
      exact Or.inr (Or.inl rfl)

/-- The parsed form of the server body with bid 5.43 as the client sees it. -/
def clientBodyGood : Json := Json.obj [("bid", Json.str "5.43")]

/-- C8: when the server responds 200 with the body whose parsed form is the
object with bid 5.43, the client calls `os.WriteFile` on the fixed output
file with exactly the content for 5.43, and when the write succeeds the final
file content is exactly that string, whatever the prior content was, with no
fatal exit. -/
theorem c8_client_writes_file (prev : Option String) (w : Client.WriteResult) :
    (Client.clientMain (.response 200 (some clientBodyGood)) w prev).writeCall
      = some (Client.outputFile, "Dólar: 5.43") ∧
    (w = Client.WriteResult.ok →
      Client.clientMain (.response 200 (some clientBodyGood)) w prev
        = ⟨none, some (Client.outputFile, "Dólar: 5.43"), some "Dólar: 5.43"⟩) := by
  cases w
  · exact ⟨rfl, fun _ => rfl⟩
  · exact ⟨rfl, fun h => by cases h⟩

/-- Witness for C8 with prior file content old. -/
theorem c8_client_writes_file_witness :
    Client.clientMain (.response 200 (some clientBodyGood)) .ok (some "old")
      = ⟨none, some (Client.outputFile, "Dólar: 5.43"), some "Dólar: 5.43"⟩ :=
  (c8_client_writes_file (some "old") .ok).2 rfl

/-- The failure modes of the client's call to the server named by C9: any
error from `Do` (timeout or transport), a non-200 status, a body that does
not decode, and a decoded body with an empty bid. -/
def clientCallFailure : Client.Outcome → Prop
  | .doError _ => True
  | .response st body =>
    st ≠ 200 ∨ (∃ e, Client.decodeQuoteResponse body = Except.error e) ∨
      Client.decodeQuoteResponse body = Except.ok ""

/-- C9: on every failure of the call to the server the client run ends in a
fatal diagnostic (`log.Fatalf`, a nonzero exit), never reaches `os.WriteFile`,
and leaves the output file untouched. -/
theorem c9_client_failure_fatal (o : Client.Outcome) (w : Client.WriteResult)
    (prev : Option String) (h : clientCallFailure o) :
    (Client.clientMain o w prev).fatalMsg.isSome = true ∧
    (Client.clientMain o w prev).writeCall = none ∧
    (Client.clientMain o w prev).file = prev := by
  cases o with
  | doError dl =>
    cases dl <;> exact ⟨rfl, rfl, rfl⟩
  | response st body =>
    by_cases hst : st = 200
    · subst hst
      rcases h with hst' | ⟨e, hdec⟩ | hdec
      · exact absurd rfl hst'
      · simp [Client.clientMain, client_requestCreationFails_eq, statusOK, hdec]
      · simp [Client.clientMain, client_requestCreationFails_eq, statusOK, hdec]
    · simp [Client.clientMain, client_requestCreationFails_eq, statusOK, hst]

/-- Witness for C9 at a client-side timeout. -/
theorem c9_client_failure_fatal_witness :
    (Client.clientMain (.doError true) .ok (some "old")).fatalMsg.isSome = true ∧
    (Client.clientMain (.doError true) .ok (some "old")).writeCall = none ∧
    (Client.clientMain (.doError true) .ok (some "old")).file = some "old" :=
  c9_client_failure_fatal (.doError true) .ok (some "old") trivial

/-- C10: an upstream 200 body that is a well-formed JSON object none of whose
keys matches the USDBRL field (so the USDBRL object is absent, whatever other
unknown fields are present) decodes successfully to the zero value, so the
handler takes the empty-bid branch — the 502 with the bid-unavailable
message — and not the undecodable-body branch. -/
theorem c10_missing_usdbrl_empty_bid (fields : List (String × Json)) (dbr : DBResult)
    (h : ∀ kv ∈ fields, keyMatches kv.1 "USDBRL" = false) :
    decodeAwesomeAPIResponse (some (Json.obj fields)) = Except.ok UsdBrlFields.zero ∧
    handleCotacao (.response 200 (some (Json.obj fields))) dbr
      = httpError "cotação indisponível" statusBadGateway := by
  have hdec : decodeAwesomeAPIResponse (some (Json.obj fields)) = Except.ok UsdBrlFields.zero :=
    decodeAwesomeFields_no_match UsdBrlFields.zero fields h
  exact ⟨hdec, handleCotacao_emptyBid (some (Json.obj fields)) dbr UsdBrlFields.zero hdec rfl⟩

/-- Witness for C10 at an object with one unknown key and no USDBRL. -/
theorem c10_missing_usdbrl_empty_bid_witness :
    decodeAwesomeAPIResponse (some (Json.obj [("foo", Json.str "bar")]))
      = Except.ok UsdBrlFields.zero ∧
    handleCotacao (.response 200 (some (Json.obj [("foo", Json.str "bar")]))) .ok
      = httpError "cotação indisponível" statusBadGateway :=
  c10_missing_usdbrl_empty_bid [("foo", Json.str "bar")] .ok (by decide)

end ClientServerAPI
